import Mathlib

/-!
# Verification of the hana-salon booking core

Shallow embedding of the conflict-detection and calendar-sync logic of the
hana-salon backend, together with theorems settling the specification's
claims about it.

Time values are modelled as minutes on a single calendar day: the
JavaScript code builds `Date` objects from one `appointmentDate` plus an
`HH:MM` wall-clock string and compares them; since every comparison is
between datetimes built on the same date, comparing minutes-since-midnight
integers is an exact model.  A request `duration` is an `Int`, matching
the JSON number the controllers receive (negative values are possible).
-/

namespace HanaSalon

/-- Booking `status` enum from the Mongoose `BookingSchema`
(`'initial' | 'confirmed' | 'in_progress' | 'completed' | 'cancelled' | 'no_show'`). -/
inductive BookingStatus
  | initial
  | confirmed
  | in_progress
  | completed
  | cancelled
  | no_show
deriving DecidableEq, Repr

/-- One entry of a booking's `services` array.  Only the `technicianId`
field is read by the availability checker; `serviceId`, `duration`,
`price` and per-service `status` never influence conflict detection and
are omitted from the projection. -/
structure ServiceEntry where
  technicianId : String
deriving DecidableEq, Repr

/-- The projection of a persisted `Booking` document onto the fields the
availability checker reads: `services`, `appointmentDate` (modelled as an
opaque day key), `startTime`/`endTime` (wall-clock `HH:MM` strings in the
schema, modelled as minutes since midnight) and `status`. -/
structure Booking where
  services : List ServiceEntry
  appointmentDate : Nat
  startTime : Int
  endTime : Int
  status : BookingStatus
deriving DecidableEq, Repr

/-- The status filter both availability queries apply:
`status: { $in: ['initial', 'confirmed', 'in_progress'] }`. -/
def isQueriedStatus (s : BookingStatus) : Bool :=
  s = .initial || s = .confirmed || s = .in_progress

/-- The Mongo query of `checkTechnicianAvailability`: some service entry
carries the technician (`'services.technicianId': technicianId`), the
`appointmentDate` falls on the requested day, and the status passes the
`$in` filter. -/
def bookingMatchesQuery (technicianId : String) (date : Nat) (b : Booking) : Bool :=
  b.services.any (fun s => s.technicianId = technicianId)
    && b.appointmentDate = date
    && isQueriedStatus b.status

/-- The overlap test both controllers apply to each candidate booking:
`(startDateTime < bookingEnd) && (endDateTime > bookingStart)`. -/
def timesOverlap (reqStart reqEnd bStart bEnd : Int) : Bool :=
  reqStart < bEnd && reqEnd > bStart

/-- Payload of the `checkTechnicianAvailability` success response:
`available` and the conflicting bookings pushed into `conflictDetails`. -/
structure AvailabilityResult where
  available : Bool
  conflicts : List Booking
deriving DecidableEq, Repr

/-- Model of `checkTechnicianAvailability` (technicians controller).  The guard
models `if (!technicianId || !date || !startTime || !duration)`: for the
number `duration` JavaScript falsiness rejects exactly `0` (and `NaN`),
so a negative duration passes; `technicianId = ""` models a missing/empty
id; `date` and `startTime` are modelled post-parse (their falsy checks
only reject absent fields, which the model's types rule out).  `none` is
the 400 Bad Request path; `some` carries the availability payload
computed from the booking store. -/
def checkTechnicianAvailability (technicianId : String) (date : Nat)
    (startTime : Int) (duration : Int) (store : List Booking) :
    Option AvailabilityResult :=
  if technicianId = "" || duration = 0 then none
  else
    let startDateTime := startTime
    let endDateTime := startTime + duration
    let conflicts := store.filter (bookingMatchesQuery technicianId date)
    let conflictDetails := conflicts.filter
      (fun b => timesOverlap startDateTime endDateTime b.startTime b.endTime)
    some { available := conflictDetails.isEmpty, conflicts := conflictDetails }

/-- One element of the `results` array of `batchCheckTechnicianAvailability`. -/
structure BatchResult where
  technicianId : String
  available : Bool
deriving DecidableEq, Repr

/-- Model of `batchCheckTechnicianAvailability` (technicians controller).  The
guard models `!technicianIds || !Array.isArray(...) || length === 0` and
`!date || !startTime || !duration` (again, only `duration = 0` is falsy
among numbers).  A single store query collects every booking on the date
whose `services` touch any requested technician and whose status passes
the `$in` filter; then, per technician and in input order, a conflict is
recorded when some fetched booking both involves that technician
(`booking.services.some(s => s.technicianId === technicianId)`) and
overlaps the requested window (the source loop breaks at the first such
booking, which `List.any` models exactly). -/
def batchCheckTechnicianAvailability (technicianIds : List String) (date : Nat)
    (startTime : Int) (duration : Int) (store : List Booking) :
    Option (List BatchResult) :=
  if technicianIds.isEmpty || duration = 0 then none
  else
    let startDateTime := startTime
    let endDateTime := startTime + duration
    let conflicts := store.filter (fun b =>
      b.services.any (fun s => s.technicianId ∈ technicianIds)
        && b.appointmentDate = date
        && isQueriedStatus b.status)
    some (technicianIds.map (fun technicianId =>
      { technicianId := technicianId
        available := !(conflicts.any (fun b =>
          b.services.any (fun s => s.technicianId = technicianId)
            && timesOverlap startDateTime endDateTime b.startTime b.endTime)) }))

/-! ## Sync state machine (`BookingCalendarIntegration`) -/

/-- The `calendarSyncStatus` enum from the Mongoose schema
(`'pending' | 'synced' | 'failed' | 'disabled'`). -/
inductive CalendarSyncStatus
  | pending
  | synced
  | failed
  | disabled
deriving DecidableEq, Repr

/-- The projection of an `IBooking` document onto the three calendar-sync
fields `BookingCalendarIntegration` reads and writes: `calendarEventId`
(optional string), `calendarSyncStatus`, and `calendarLastSyncAt`
(modelled as an abstract timestamp). -/
structure CalendarBooking where
  calendarEventId : Option String
  calendarSyncStatus : CalendarSyncStatus
  calendarLastSyncAt : Option Nat
deriving DecidableEq, Repr

/-- JavaScript truthiness of an optional string field: `undefined` and the
empty string are falsy (`if (booking.calendarEventId)`). -/
def truthy : Option String → Bool
  | none => false
  | some s => s ≠ ""

/-- Outcome of the awaited `calendarService.createBookingEvent(...)` call:
it resolves to `string | null`, or the await itself throws. -/
inductive CreateCallOutcome
  | resolved (eventId : Option String)
  | threw
deriving DecidableEq, Repr

/-- Outcome of an awaited boolean calendar call
(`updateBookingEvent` / `deleteBookingEvent`): resolves to a boolean or throws. -/
inductive BoolCallOutcome
  | resolved (success : Bool)
  | threw
deriving DecidableEq, Repr

/-- Return value of `BookingCalendarIntegration.createCalendarEvent` /
`syncBookingWithCalendar`: `{ success: boolean; eventId?: string }`
(`error` strings are not modelled). -/
structure CreateResult where
  success : Bool
  eventId : Option String
deriving DecidableEq, Repr

/-- Return value of `updateCalendarEvent` / `deleteCalendarEvent`:
`{ success: boolean }` (`error` strings are not modelled). -/
structure UpdateResult where
  success : Bool
deriving DecidableEq, Repr

/-- Model of `BookingCalendarIntegration.createCalendarEvent`.  `calendarService`
is whether `CalendarServiceFactory.getInstance()` returned an instance;
`outcome` is the behaviour of the awaited `createBookingEvent` call;
`now` models `new Date()`.  Returns the mutated booking and the result
object. -/
def createCalendarEvent (calendarService : Bool) (outcome : CreateCallOutcome)
    (booking : CalendarBooking) (now : Nat) : CalendarBooking × CreateResult :=
  if !calendarService then
    ({ booking with calendarSyncStatus := .disabled },
     { success := true, eventId := none })
  else
    match outcome with
    | .resolved eid =>
      if truthy eid then
        ({ calendarEventId := eid, calendarSyncStatus := .synced, calendarLastSyncAt := some now },
         { success := true, eventId := eid })
      else
        ({ booking with calendarSyncStatus := .failed },
         { success := false, eventId := none })
    | .threw =>
        ({ booking with calendarSyncStatus := .failed },
         { success := false, eventId := none })

/-- Model of `BookingCalendarIntegration.updateCalendarEvent`.  The early-return
branch models
`if (!calendarService || !booking.calendarEventId) { booking.calendarSyncStatus = booking.calendarEventId ? 'failed' : 'disabled'; return { success: true }; }`. -/
def updateCalendarEvent (calendarService : Bool) (outcome : BoolCallOutcome)
    (booking : CalendarBooking) (now : Nat) : CalendarBooking × UpdateResult :=
  if !calendarService || !truthy booking.calendarEventId then
    ({ booking with calendarSyncStatus :=
        (if truthy booking.calendarEventId then .failed else .disabled) },
     { success := true })
  else
    match outcome with
    | .resolved true =>
        ({ booking with calendarSyncStatus := .synced, calendarLastSyncAt := some now },
         { success := true })
    | .resolved false =>
        ({ booking with calendarSyncStatus := .failed }, { success := false })
    | .threw =>
        ({ booking with calendarSyncStatus := .failed }, { success := false })

/-- Model of `BookingCalendarIntegration.deleteCalendarEvent`.  With no service or
no event id it returns `{ success: true }` without touching the booking
("Nothing to delete"); on a successful delete it clears
`calendarEventId` (via `delete booking.calendarEventId`), sets the status
to `disabled` and stamps `calendarLastSyncAt`. -/
def deleteCalendarEvent (calendarService : Bool) (outcome : BoolCallOutcome)
    (booking : CalendarBooking) (now : Nat) : CalendarBooking × UpdateResult :=
  if !calendarService || !truthy booking.calendarEventId then
    (booking, { success := true })
  else
    match outcome with
    | .resolved true =>
        ({ calendarEventId := none, calendarSyncStatus := .disabled, calendarLastSyncAt := some now },
         { success := true })
    | .resolved false =>
        ({ booking with calendarSyncStatus := .failed }, { success := false })
    | .threw =>
        ({ booking with calendarSyncStatus := .failed }, { success := false })

/-- Which calendar operation a sync performed — an observation of the
branch taken by `syncBookingWithCalendar`, recording the event id an
update was issued against. -/
inductive SyncOp
  | createOp
  | updateOp (eventId : String)
deriving DecidableEq, Repr

/-- Model of `BookingCalendarIntegration.syncBookingWithCalendar`: if the booking
carries a (truthy) `calendarEventId` it delegates to
`updateCalendarEvent` and returns `{ ...result, eventId: booking.calendarEventId }`
(read back from the booking after the call); otherwise it delegates to
`createCalendarEvent`.  The operation taken is returned as a `SyncOp`
observation. -/
def syncBookingWithCalendar (calendarService : Bool)
    (updOutcome : BoolCallOutcome) (createOutcome : CreateCallOutcome)
    (booking : CalendarBooking) (now : Nat) :
    CalendarBooking × CreateResult × SyncOp :=
  if truthy booking.calendarEventId then
    let r := updateCalendarEvent calendarService updOutcome booking now
    (r.1, { success := r.2.success, eventId := r.1.calendarEventId },
     .updateOp (booking.calendarEventId.getD ""))
  else
    let r := createCalendarEvent calendarService createOutcome booking now
    (r.1, r.2, .createOp)

/-! ## Calendar status projection and conflict lookup (`GoogleCalendarService`) -/

/-- Google Calendar event status values
(`'confirmed' | 'tentative' | 'cancelled'`). -/
inductive CalendarEventStatus
  | confirmed
  | tentative
  | cancelled
deriving DecidableEq, Repr

/-- Model of `GoogleCalendarService.mapBookingStatusToCalendarStatus` (the copy at
lines 585–599): `confirmed | in_progress | completed → 'confirmed'`;
`initial → 'tentative'`; `cancelled | no_show → 'cancelled'`;
`default → 'tentative'`.  The argument is the raw status string, as in
the source. -/
def mapBookingStatusToCalendarStatus (bookingStatus : String) : CalendarEventStatus :=
  if bookingStatus = "confirmed" || bookingStatus = "in_progress"
      || bookingStatus = "completed" then .confirmed
  else if bookingStatus = "initial" then .tentative
  else if bookingStatus = "cancelled" || bookingStatus = "no_show" then .cancelled
  else .tentative

/-- The second copy of `mapBookingStatusToCalendarStatus` in the file
(lines 166–180), whose explicit `tentative` case is `'scheduled'` rather
than `'initial'`; the `default` arm is `'tentative'` in both copies. -/
def mapBookingStatusToCalendarStatusAlt (bookingStatus : String) : CalendarEventStatus :=
  if bookingStatus = "confirmed" || bookingStatus = "in_progress"
      || bookingStatus = "completed" then .confirmed
  else if bookingStatus = "scheduled" then .tentative
  else if bookingStatus = "cancelled" || bookingStatus = "no_show" then .cancelled
  else .tentative

/-- The projection of a Google Calendar event onto the two fields
`checkForConflicts` filters on: `id` and `status`. -/
structure CalendarEvent where
  id : String
  status : String
deriving DecidableEq, Repr

/-- Outcome of the awaited `calendar.events.list` call: resolves with an
item list (`response.data.items || []`) or throws. -/
inductive ListCallOutcome
  | resolved (items : List CalendarEvent)
  | threw
deriving DecidableEq, Repr

/-- Model of `GoogleCalendarService.checkForConflicts`: lists events in the window
and keeps those with `event.id !== excludeEventId && event.status !== 'cancelled'`
(`undefined` compares unequal to every string id); any error yields `[]`. -/
def googleCheckForConflicts (outcome : ListCallOutcome)
    (excludeEventId : Option String) : List CalendarEvent :=
  match outcome with
  | .resolved events =>
      events.filter (fun e =>
        (match excludeEventId with
         | some x => e.id ≠ x
         | none => true)
        && e.status ≠ "cancelled")
  | .threw => []

/-- Return value of `BookingCalendarIntegration.checkForConflicts`:
`{ hasConflicts: boolean; conflictingEvents?: any[] }`. -/
structure ConflictCheckResult where
  hasConflicts : Bool
  conflictingEvents : Option (List CalendarEvent)
deriving DecidableEq, Repr

/-- Model of `BookingCalendarIntegration.checkForConflicts`.  `calendarService` is
whether the factory returned an instance; `threw` is whether anything in
the `try` block threw before the result was assembled; `outcome` drives
the inner `calendarService.checkForConflicts` call.  The event-id lookup
for `excludeBookingId` is unimplemented in the source, so `excludeEventId`
is always `undefined` (`none`). -/
def integrationCheckForConflicts (calendarService : Bool) (threw : Bool)
    (outcome : ListCallOutcome) : ConflictCheckResult :=
  if !calendarService then
    { hasConflicts := false, conflictingEvents := none }
  else if threw then
    { hasConflicts := false, conflictingEvents := none }
  else
    let conflictingEvents := googleCheckForConflicts outcome none
    { hasConflicts := conflictingEvents.length > 0,
      conflictingEvents := some conflictingEvents }

/-! ## Duration validation (`createBooking` controller and `BookingSchema` save hook) -/

/-- The time-logic fragment of the `createBooking` controller (times in
minutes since midnight, as computed by
`(endHours * 60 + endMinutes) - (startHours * 60 + startMinutes)`):
rejects `calculatedDuration <= 0`, rejects
`Math.abs(calculatedDuration - totalDuration) > 15`, and otherwise
accepts, storing `totalDuration: calculatedDuration` on the booking —
the returned value is the `totalDuration` the created document carries. -/
def createBookingTimeValidation (startTime endTime totalDuration : Int) : Option Int :=
  let calculatedDuration := endTime - startTime
  if calculatedDuration ≤ 0 then none
  else if (calculatedDuration - totalDuration).natAbs > 15 then none
  else some calculatedDuration

/-- The `BookingSchema.pre('save')` time-logic hook: rejects
`endTotalMinutes <= startTotalMinutes`, then rejects
`Math.abs(this.totalDuration - calculatedDuration) > 5`; otherwise the
save proceeds (`true`). -/
def bookingPreSaveTimeValidation (startTime endTime totalDuration : Int) : Bool :=
  if endTime ≤ startTime then false
  else (totalDuration - (endTime - startTime)).natAbs ≤ 5

/-! ## Helper lemmas -/

/-- On a request that passes the guard, `checkTechnicianAvailability`
returns the double filter of the store. -/
theorem checkTechnicianAvailability_eq_some (technicianId : String) (date : Nat)
    (st dur : Int) (store : List Booking)
    (hT : technicianId ≠ "") (hD : dur ≠ 0) :
    checkTechnicianAvailability technicianId date st dur store =
      some ⟨((store.filter (bookingMatchesQuery technicianId date)).filter
               (fun b => timesOverlap st (st + dur) b.startTime b.endTime)).isEmpty,
            (store.filter (bookingMatchesQuery technicianId date)).filter
               (fun b => timesOverlap st (st + dur) b.startTime b.endTime)⟩ := by
  simp [checkTechnicianAvailability, hT, hD]

/-- Characterisation of a `some` result of `checkTechnicianAvailability`:
the guard passed and the result is the double filter. -/
theorem checkTechnicianAvailability_some_elim (technicianId : String) (date : Nat)
    (st dur : Int) (store : List Booking) (r : AvailabilityResult)
    (h : checkTechnicianAvailability technicianId date st dur store = some r) :
    r.conflicts = (store.filter (bookingMatchesQuery technicianId date)).filter
        (fun b => timesOverlap st (st + dur) b.startTime b.endTime)
      ∧ r.available = r.conflicts.isEmpty := by
  unfold checkTechnicianAvailability at h
  split at h
  · cases h
  · injection h with h
    subst h
    exact ⟨rfl, rfl⟩

/-- On a request that passes the guard, `batchCheckTechnicianAvailability`
returns the per-technician map over the single fetched conflict list. -/
theorem batchCheckTechnicianAvailability_some_elim (technicianIds : List String)
    (date : Nat) (st dur : Int) (store : List Booking) (results : List BatchResult)
    (h : batchCheckTechnicianAvailability technicianIds date st dur store = some results) :
    results = technicianIds.map (fun technicianId =>
      ⟨technicianId,
       !((store.filter (fun b =>
            b.services.any (fun s => s.technicianId ∈ technicianIds)
              && b.appointmentDate = date
              && isQueriedStatus b.status)).any (fun b =>
          b.services.any (fun s => s.technicianId = technicianId)
            && timesOverlap st (st + dur) b.startTime b.endTime))⟩) := by
  unfold batchCheckTechnicianAvailability at h
  split at h
  · cases h
  · injection h with h
    exact h.symm

/-- The overlap test holds exactly on the half-open inequality pair. -/
theorem timesOverlap_iff (rs re bs be : Int) :
    timesOverlap rs re bs be = true ↔ (rs < be ∧ re > bs) := by
  simp [timesOverlap]

/-- Boolean negation flips `true` to `false`. -/
theorem bool_not_eq_true (x : Bool) : ((!x) = true ↔ x = false) := by
  cases x <;> simp

/-- A boolean that is not `false` is `true`. -/
theorem bool_ne_false (x : Bool) (h : ¬ x = false) : x = true := by
  cases x
  · exact absurd rfl h
  · rfl

/-- Boolean negation flips `false` to `true`. -/
theorem bool_not_eq_false (x : Bool) : ((!x) = false ↔ x = true) := by
  cases x <;> simp

/-- Projecting the technician ids back out of a per-technician result map
returns the input list. -/
theorem map_technicianId_map (l : List String) (f : String → Bool) :
    (l.map (fun t => (⟨t, f t⟩ : BatchResult))).map (fun p => p.technicianId) = l := by
  induction l with
  | nil => rfl
  | cons a tl ih => simp only [List.map_cons, ih]

/-- The `$in` status filter holds exactly on the three listed statuses. -/
theorem isQueriedStatus_iff (s : BookingStatus) :
    isQueriedStatus s = true ↔ (s = .initial ∨ s = .confirmed ∨ s = .in_progress) := by
  cases s <;> simp [isQueriedStatus]

/-! ## Claims -/

/-- C1: the availability check reports a conflict iff
`requested.start < booking.end` and `requested.end > booking.start`
(half-open semantics), for both the single check and the batch check; in
particular a booking ending exactly at the requested start is never a
conflict, and a request starting exactly at an existing booking's end
time returns `available = true`. -/
theorem C1_half_open_overlap (technicianId : String) (date : Nat) (st dur : Int)
    (store : List Booking) (r : AvailabilityResult)
    (h : checkTechnicianAvailability technicianId date st dur store = some r) :
    (r.available = true ↔ ∀ b ∈ store, bookingMatchesQuery technicianId date b = true →
        ¬(st < b.endTime ∧ st + dur > b.startTime))
    ∧ (∀ b ∈ store, b.endTime ≤ st → b ∉ r.conflicts)
    ∧ (∀ (b : Booking) (r₂ : AvailabilityResult),
        checkTechnicianAvailability technicianId date b.endTime dur [b] = some r₂ →
        r₂.available = true)
    ∧ (∀ (ids : List String) (results : List BatchResult) (p : BatchResult),
        batchCheckTechnicianAvailability ids date st dur store = some results →
        p ∈ results →
        (p.available = true ↔ ∀ b ∈ store, b.appointmentDate = date →
          isQueriedStatus b.status = true →
          b.services.any (fun s => s.technicianId = p.technicianId) = true →
          ¬(st < b.endTime ∧ st + dur > b.startTime))) := by
  obtain ⟨hc, ha⟩ := checkTechnicianAvailability_some_elim _ _ _ _ _ _ h
  refine ⟨?_, ?_, ?_, ?_⟩
  · rw [ha, hc, List.isEmpty_iff, List.filter_eq_nil_iff]
    constructor
    · intro hL b hb hq hP
      exact hL b (List.mem_filter.mpr ⟨hb, hq⟩)
        ((timesOverlap_iff _ _ _ _).mpr ⟨hP.1, hP.2⟩)
    · intro hR b hmem hov
      obtain ⟨hb, hq⟩ := List.mem_filter.mp hmem
      exact hR b hb hq ((timesOverlap_iff _ _ _ _).mp hov)
  · intro b hb hend hmem
    rw [hc] at hmem
    obtain ⟨-, hov⟩ := List.mem_filter.mp hmem
    have := (timesOverlap_iff _ _ _ _).mp hov
    omega
  · intro b r₂ h₂
    obtain ⟨hc₂, ha₂⟩ := checkTechnicianAvailability_some_elim _ _ _ _ _ _ h₂
    rw [ha₂, hc₂, List.isEmpty_iff, List.filter_eq_nil_iff]
    intro a hmem hov
    obtain ⟨ha', -⟩ := List.mem_filter.mp hmem
    have hab : a = b := by
      cases ha' with
      | head => rfl
      | tail _ htl => cases htl
    subst hab
    have := (timesOverlap_iff _ _ _ _).mp hov
    omega
  · intro ids results p hb hp
    have heq := batchCheckTechnicianAvailability_some_elim _ _ _ _ _ _ hb
    subst heq
    simp only [List.mem_map] at hp
    obtain ⟨t, ht, hpt⟩ := hp
    subst hpt
    rw [bool_not_eq_true]
    constructor
    · intro hfalse b hbst hdate hstatus hinv hov
      have hmem : b ∈ store.filter (fun b =>
          b.services.any (fun s => s.technicianId ∈ ids)
            && b.appointmentDate = date && isQueriedStatus b.status) := by
        refine List.mem_filter.mpr ⟨hbst, ?_⟩
        have hcont : b.services.any (fun s => s.technicianId ∈ ids) = true := by
          simp only [List.any_eq_true, decide_eq_true_eq] at hinv ⊢
          obtain ⟨s, hs, hst⟩ := hinv
          exact ⟨s, hs, hst ▸ ht⟩
        simp [hcont, hdate, hstatus]
      have hg : (b.services.any (fun s => s.technicianId = t)
          && timesOverlap st (st + dur) b.startTime b.endTime) = true := by
        rw [Bool.and_eq_true]
        exact ⟨hinv, (timesOverlap_iff _ _ _ _).mpr ⟨hov.1, hov.2⟩⟩
      have hany : (store.filter (fun b =>
          b.services.any (fun s => s.technicianId ∈ ids)
            && b.appointmentDate = date && isQueriedStatus b.status)).any (fun b =>
          b.services.any (fun s => s.technicianId = t)
            && timesOverlap st (st + dur) b.startTime b.endTime) = true :=
        List.any_eq_true.mpr ⟨b, hmem, hg⟩
      rw [hfalse] at hany
      cases hany
    · intro hR
      by_contra hcon
      have hany := bool_ne_false _ hcon
      obtain ⟨b, hmem, hg⟩ := List.any_eq_true.mp hany
      obtain ⟨hbst, -⟩ := List.mem_filter.mp hmem
      rw [Bool.and_eq_true] at hg
      obtain ⟨hinv, hov⟩ := hg
      have hovp := (timesOverlap_iff _ _ _ _).mp hov
      have hq := (List.mem_filter.mp hmem).2
      rw [Bool.and_eq_true, Bool.and_eq_true] at hq
      exact hR b hbst (of_decide_eq_true hq.1.2) hq.2 hinv ⟨hovp.1, hovp.2⟩

/-- Witness for C1: technician `t1` has a confirmed booking 09:00–10:00 on
day 0; a request at 10:00 for 30 minutes is adjacent, so the theorem's
iff yields `available = true`. -/
theorem C1_half_open_overlap_witness :
    (AvailabilityResult.mk true []).available = true :=
  ((C1_half_open_overlap "t1" 0 600 30 [⟨[⟨"t1"⟩], 0, 540, 600, .confirmed⟩]
      ⟨true, []⟩ (by decide)).1).mpr (by decide)

/-- C2 counterexample: a `completed` booking 09:00–10:00 for technician
`t1` is not `cancelled` and overlaps the requested window 09:10–09:40,
yet `checkTechnicianAvailability` reports `available = true` with no
conflicts, because the store query only fetches statuses
`initial`, `confirmed`, `in_progress`. -/
theorem C2_completed_overlap_counterexample :
    ((⟨[⟨"t1"⟩], 0, 540, 600, .completed⟩ : Booking).status ≠ .cancelled)
    ∧ timesOverlap 550 580 (540 : Int) 600 = true
    ∧ checkTechnicianAvailability "t1" 0 550 30
        [⟨[⟨"t1"⟩], 0, 540, 600, .completed⟩] = some ⟨true, []⟩ := by
  decide

/-- C2 (amended): a booking is reported as a conflict iff it is in the
store, involves the technician, falls on the date, has status `initial`,
`confirmed` or `in_progress` (so `cancelled` — but also `completed` and
`no_show` — bookings never conflict), and overlaps the requested window. -/
theorem C2_active_statuses_amended (technicianId : String) (date : Nat) (st dur : Int)
    (store : List Booking) (r : AvailabilityResult)
    (h : checkTechnicianAvailability technicianId date st dur store = some r) :
    (∀ b, b ∈ r.conflicts ↔ (b ∈ store
        ∧ b.services.any (fun s => s.technicianId = technicianId) = true
        ∧ b.appointmentDate = date
        ∧ (b.status = .initial ∨ b.status = .confirmed ∨ b.status = .in_progress)
        ∧ st < b.endTime ∧ st + dur > b.startTime))
    ∧ (∀ b ∈ r.conflicts, b.status ≠ .cancelled) := by
  obtain ⟨hc, -⟩ := checkTechnicianAvailability_some_elim _ _ _ _ _ _ h
  have hiff : ∀ b, b ∈ r.conflicts ↔ (b ∈ store
      ∧ b.services.any (fun s => s.technicianId = technicianId) = true
      ∧ b.appointmentDate = date
      ∧ (b.status = .initial ∨ b.status = .confirmed ∨ b.status = .in_progress)
      ∧ st < b.endTime ∧ st + dur > b.startTime) := by
    intro b
    rw [hc]
    simp only [List.mem_filter, bookingMatchesQuery, Bool.and_eq_true,
      decide_eq_true_eq, isQueriedStatus_iff, timesOverlap_iff]
    tauto
  refine ⟨hiff, ?_⟩
  intro b hb
  rcases ((hiff b).mp hb).2.2.2.1 with h1 | h1 | h1 <;> simp [h1]

/-- Witness for C2 (amended): the `completed` booking of the
counterexample is indeed excluded from the conflict list by the iff. -/
theorem C2_active_statuses_amended_witness :
    ¬ ((⟨[⟨"t1"⟩], 0, 540, 600, .completed⟩ : Booking)
        ∈ (AvailabilityResult.mk true []).conflicts) := by
  intro hmem
  have := ((C2_active_statuses_amended "t1" 0 550 30
      [⟨[⟨"t1"⟩], 0, 540, 600, .completed⟩] ⟨true, []⟩ (by decide)).1 _).mp hmem
  rcases this.2.2.2.1 with h1 | h1 | h1 <;> exact absurd h1 (by decide)

/-- C5: over a non-empty technician list the batch check returns one
result per technician, preserving input order, and an unavailable result
is always witnessed by a fetched booking that actually contains that
technician in its `services` (a booking of two other technicians never
produces a false conflict). -/
theorem C5_batch_results (ids : List String) (date : Nat) (st dur : Int)
    (store : List Booking) (results : List BatchResult)
    (h : batchCheckTechnicianAvailability ids date st dur store = some results) :
    results.length = ids.length
    ∧ results.map (fun p => p.technicianId) = ids
    ∧ (∀ p ∈ results, p.available = false →
        ∃ b, b ∈ store
          ∧ b.services.any (fun s => s.technicianId = p.technicianId) = true
          ∧ b.appointmentDate = date ∧ isQueriedStatus b.status = true
          ∧ st < b.endTime ∧ st + dur > b.startTime) := by
  have heq := batchCheckTechnicianAvailability_some_elim _ _ _ _ _ _ h
  subst heq
  refine ⟨by simp, map_technicianId_map ids _, ?_⟩
  intro p hp hfalse
  simp only [List.mem_map] at hp
  obtain ⟨t, ht, hpt⟩ := hp
  subst hpt
  have hany := (bool_not_eq_false _).mp hfalse
  obtain ⟨b, hmem, hg⟩ := List.any_eq_true.mp hany
  obtain ⟨hbst, hq⟩ := List.mem_filter.mp hmem
  rw [Bool.and_eq_true, Bool.and_eq_true] at hq
  rw [Bool.and_eq_true] at hg
  have hovp := (timesOverlap_iff _ _ _ _).mp hg.2
  exact ⟨b, hbst, hg.1, of_decide_eq_true hq.1.2, hq.2, hovp.1, hovp.2⟩

/-- Witness for C5: two technicians, `t1` with a conflicting confirmed
booking and `t2` free, produce two results in input order. -/
theorem C5_batch_results_witness :
    ([⟨"t1", false⟩, ⟨"t2", true⟩] : List BatchResult).length = ["t1", "t2"].length
    ∧ ([⟨"t1", false⟩, ⟨"t2", true⟩] : List BatchResult).map
        (fun p => p.technicianId) = ["t1", "t2"] := by
  have := C5_batch_results ["t1", "t2"] 0 570 30
    [⟨[⟨"t1"⟩], 0, 540, 600, .confirmed⟩] [⟨"t1", false⟩, ⟨"t2", true⟩] (by decide)
  exact ⟨this.1, this.2.1⟩

/-- C8 counterexample: a request with the negative duration −15 is *not*
rejected — the controller guard `!duration` only catches the falsy value
`0` — and an availability result is produced by both the single and the
batch check. -/
theorem C8_negative_duration_counterexample :
    (-15 : Int) < 0
    ∧ checkTechnicianAvailability "t1" 0 600 (-15) [] = some ⟨true, []⟩
    ∧ batchCheckTechnicianAvailability ["t1"] 0 600 (-15) [] = some [⟨"t1", true⟩] := by
  decide

/-- C8 (amended): a request with duration `0` is rejected by the guard
before the store is consulted (both single and batch), but a *negative*
duration passes the guard and produces an availability result. -/
theorem C8_zero_duration_amended (technicianId : String) (ids : List String)
    (date : Nat) (st : Int) (store : List Booking) (dur : Int)
    (hT : technicianId ≠ "") (hIds : ids ≠ []) (hd : dur < 0) :
    checkTechnicianAvailability technicianId date st 0 store = none
    ∧ batchCheckTechnicianAvailability ids date st 0 store = none
    ∧ (checkTechnicianAvailability technicianId date st dur store).isSome = true
    ∧ (batchCheckTechnicianAvailability ids date st dur store).isSome = true := by
  have hd0 : dur ≠ 0 := by omega
  refine ⟨by simp [checkTechnicianAvailability],
    by simp [batchCheckTechnicianAvailability], ?_, ?_⟩
  · simp [checkTechnicianAvailability, hT, hd0]
  · simp [batchCheckTechnicianAvailability, hIds, hd0]

/-- Witness for C8 (amended): concrete instantiation at technician `t1`,
batch list `[t1]`, duration −15. -/
theorem C8_zero_duration_amended_witness :
    checkTechnicianAvailability "t1" 0 600 0 [] = none
    ∧ (checkTechnicianAvailability "t1" 0 600 (-15) []).isSome = true := by
  have := C8_zero_duration_amended "t1" ["t1"] 0 600 [] (-15)
    (by decide) (by decide) (by decide)
  exact ⟨this.1, this.2.2.1⟩

/-- Lemma: `updateCalendarEvent` never changes `calendarEventId`. -/
theorem updateCalendarEvent_eventId (svc : Bool) (uo : BoolCallOutcome)
    (b : CalendarBooking) (now : Nat) :
    (updateCalendarEvent svc uo b now).1.calendarEventId = b.calendarEventId := by
  unfold updateCalendarEvent
  split
  · rfl
  · cases uo with
    | resolved s => cases s <;> rfl
    | threw => rfl

/-- C3: from any booking and any starting sync state, a transport Create
that resolves with an event id lands in `synced` storing that id and
stamping `calendarLastSyncAt`, and a Create failure (null id or thrown
error) lands in `failed`; and on any booking holding a truthy
`calendarEventId` — the source's guard for a transport update/delete to
be issued at all — an Update that resolves `true` lands in `synced`, a
Delete that resolves `true` lands in `disabled` and clears
`calendarEventId`, and every Update/Delete failure or thrown error lands
in `failed` — never the pre-call state. -/
theorem C3_sync_state_closure (b : CalendarBooking) (now : Nat) (id : String)
    (hid : id ≠ "") :
    ((createCalendarEvent true (.resolved (some id)) b now).1.calendarSyncStatus = .synced
      ∧ (createCalendarEvent true (.resolved (some id)) b now).1.calendarEventId = some id
      ∧ (createCalendarEvent true (.resolved (some id)) b now).1.calendarLastSyncAt = some now)
    ∧ (createCalendarEvent true (.resolved none) b now).1.calendarSyncStatus = .failed
    ∧ (createCalendarEvent true .threw b now).1.calendarSyncStatus = .failed
    ∧ (truthy b.calendarEventId = true →
        (updateCalendarEvent true (.resolved true) b now).1.calendarSyncStatus = .synced
        ∧ ((deleteCalendarEvent true (.resolved true) b now).1.calendarSyncStatus = .disabled
          ∧ (deleteCalendarEvent true (.resolved true) b now).1.calendarEventId = none)
        ∧ (updateCalendarEvent true (.resolved false) b now).1.calendarSyncStatus = .failed
        ∧ (updateCalendarEvent true .threw b now).1.calendarSyncStatus = .failed
        ∧ (deleteCalendarEvent true (.resolved false) b now).1.calendarSyncStatus = .failed
        ∧ (deleteCalendarEvent true .threw b now).1.calendarSyncStatus = .failed) := by
  have h2 : truthy (some id) = true := by simp [truthy, hid]
  have h0 : truthy none = false := rfl
  refine ⟨?_, ?_, ?_, ?_⟩
  · simp [createCalendarEvent, h2]
  · simp [createCalendarEvent, h0]
  · simp [createCalendarEvent]
  · intro he
    simp [updateCalendarEvent, deleteCalendarEvent, he]

/-- Witness for C3: a `pending` booking with no calendar event id lands in
`synced` with the created id stored, and a `pending` booking holding
event id `evt` lands in `disabled` after a successful delete. -/
theorem C3_sync_state_closure_witness :
    ((createCalendarEvent true (.resolved (some "id1"))
        ⟨none, .pending, none⟩ 7).1.calendarSyncStatus = .synced
      ∧ (createCalendarEvent true (.resolved (some "id1"))
        ⟨none, .pending, none⟩ 7).1.calendarEventId = some "id1")
    ∧ (deleteCalendarEvent true (.resolved true)
        ⟨some "evt", .pending, none⟩ 7).1.calendarSyncStatus = .disabled := by
  have hA := C3_sync_state_closure ⟨none, .pending, none⟩ 7 "id1" (by decide)
  have hB := C3_sync_state_closure ⟨some "evt", .pending, none⟩ 7 "id1" (by decide)
  exact ⟨⟨hA.1.1, hA.1.2.1⟩, (hB.2.2.2 (by decide)).2.1.1⟩

/-- C4: a sync on a booking that already carries a (truthy)
`calendarEventId` performs an Update against that id and returns the very
same id — never a duplicate Create; a booking without one gets a Create
instead. -/
theorem C4_sync_idempotent_identity (b : CalendarBooking) (now : Nat)
    (svc : Bool) (uo : BoolCallOutcome) (co : CreateCallOutcome) :
    (∀ e, b.calendarEventId = some e → e ≠ "" →
      (syncBookingWithCalendar svc uo co b now).2.2 = .updateOp e
      ∧ (syncBookingWithCalendar svc uo co b now).2.1.eventId = some e)
    ∧ (truthy b.calendarEventId = false →
      (syncBookingWithCalendar svc uo co b now).2.2 = .createOp) := by
  constructor
  · intro e he hne
    have h2 : truthy (some e) = true := by simp [truthy, hne]
    constructor
    · simp [syncBookingWithCalendar, he, h2]
    · simp [syncBookingWithCalendar, he, h2, updateCalendarEvent_eventId]
  · intro hf
    simp [syncBookingWithCalendar, hf]

/-- Witness for C4: a booking carrying event id `evt` updates against
`evt` and returns it. -/
theorem C4_sync_idempotent_identity_witness :
    (syncBookingWithCalendar true (.resolved true) (.resolved (some "x"))
        ⟨some "evt", .synced, some 1⟩ 2).2.2 = .updateOp "evt"
    ∧ (syncBookingWithCalendar true (.resolved true) (.resolved (some "x"))
        ⟨some "evt", .synced, some 1⟩ 2).2.1.eventId = some "evt" :=
  (C4_sync_idempotent_identity ⟨some "evt", .synced, some 1⟩ 2 true
    (.resolved true) (.resolved (some "x"))).1 "evt" rfl (by decide)

/-- C6 counterexample: with the calendar collaborator unavailable, an
Update on a `pending` booking that holds event id `evt` sets
`calendarSyncStatus` to `failed` (not `disabled`), and a Delete leaves
the status at `pending` (not `disabled`); both still report success. -/
theorem C6_unconfigured_counterexample :
    (updateCalendarEvent false (.resolved true)
        ⟨some "evt", .pending, none⟩ 3).1.calendarSyncStatus = .failed
    ∧ (updateCalendarEvent false (.resolved true)
        ⟨some "evt", .pending, none⟩ 3).2.success = true
    ∧ (deleteCalendarEvent false (.resolved true)
        ⟨some "evt", .pending, none⟩ 3).1.calendarSyncStatus = .pending := by
  decide

/-- C6 (amended): when the collaborator is unavailable/unconfigured every
sync call still reports success, but only Create always sets `disabled`;
Update sets `disabled` exactly when the booking has no truthy
`calendarEventId` and `failed` when it has one; Delete leaves the booking
untouched. -/
theorem C6_unconfigured_amended (b : CalendarBooking) (now : Nat)
    (co : CreateCallOutcome) (uo : BoolCallOutcome) :
    ((createCalendarEvent false co b now).2.success = true
      ∧ (createCalendarEvent false co b now).1.calendarSyncStatus = .disabled)
    ∧ ((updateCalendarEvent false uo b now).2.success = true
      ∧ (updateCalendarEvent false uo b now).1.calendarSyncStatus =
          (if truthy b.calendarEventId then .failed else .disabled))
    ∧ ((deleteCalendarEvent false uo b now).2.success = true
      ∧ (deleteCalendarEvent false uo b now).1 = b) := by
  simp [createCalendarEvent, updateCalendarEvent, deleteCalendarEvent]

/-- C7 counterexample: a booking 10:00–10:50 whose services sum to 60
minutes differs from the wall-clock duration by 10 minutes — within the
15-minute tolerance, and indeed accepted by the `createBooking` check —
yet the schema's pre-save hook rejects it, because that hook tolerates
only 5 minutes. -/
theorem C7_tolerance_counterexample :
    ((60 : Int) - (650 - 600)).natAbs ≤ 15
    ∧ createBookingTimeValidation 600 650 60 = some 50
    ∧ bookingPreSaveTimeValidation 600 650 60 = false := by
  decide

/-- C7 (amended): every booking passing the schema save hook has
`|totalDuration − (endTime − startTime)| ≤ 5` (hence ≤ 15); a difference
above 15 minutes is rejected by both the controller check and the save
hook; and a booking accepted by the `createBooking` controller stores
`totalDuration := endTime − startTime` (difference 0, after passing the
15-minute comparison against the service sum).  The two layers disagree
between 6 and 15 minutes, as the counterexample shows. -/
theorem C7_duration_tolerance_amended (startTime endTime totalDuration stored : Int) :
    (bookingPreSaveTimeValidation startTime endTime totalDuration = true →
      (totalDuration - (endTime - startTime)).natAbs ≤ 5
      ∧ (totalDuration - (endTime - startTime)).natAbs ≤ 15)
    ∧ ((totalDuration - (endTime - startTime)).natAbs > 15 →
      bookingPreSaveTimeValidation startTime endTime totalDuration = false
      ∧ createBookingTimeValidation startTime endTime totalDuration = none)
    ∧ (createBookingTimeValidation startTime endTime totalDuration = some stored →
      stored = endTime - startTime
      ∧ (totalDuration - (endTime - startTime)).natAbs ≤ 15) := by
  refine ⟨?_, ?_, ?_⟩
  · intro h
    unfold bookingPreSaveTimeValidation at h
    by_cases h1 : endTime ≤ startTime
    · rw [if_pos h1] at h
      exact absurd h (by simp)
    · rw [if_neg h1] at h
      have h5 := of_decide_eq_true h
      exact ⟨h5, by omega⟩
  · intro h15
    constructor
    · unfold bookingPreSaveTimeValidation
      by_cases h1 : endTime ≤ startTime
      · rw [if_pos h1]
      · rw [if_neg h1]
        exact decide_eq_false (by omega)
    · simp only [createBookingTimeValidation]
      by_cases h1 : endTime - startTime ≤ 0
      · rw [if_pos h1]
      · rw [if_neg h1,
          if_pos (show (endTime - startTime - totalDuration).natAbs > 15 by omega)]
  · intro h
    simp only [createBookingTimeValidation] at h
    by_cases h1 : endTime - startTime ≤ 0
    · rw [if_pos h1] at h
      exact absurd h (by simp)
    · rw [if_neg h1] at h
      by_cases h2 : (endTime - startTime - totalDuration).natAbs > 15
      · rw [if_pos h2] at h
        exact absurd h (by simp)
      · rw [if_neg h2] at h
        have hs := Option.some.inj h
        exact ⟨hs.symm, by omega⟩

/-- Witness for C7 (amended): the controller accepts the counterexample
booking and stores the calculated 50-minute duration. -/
theorem C7_duration_tolerance_amended_witness :
    (50 : Int) = 650 - 600 ∧ ((60 : Int) - (650 - 600)).natAbs ≤ 15 :=
  (C7_duration_tolerance_amended 600 650 60 50).2.2 (by decide)

/-- C9: the calendar-event projection maps booking statuses `confirmed`,
`in_progress`, `completed` to calendar status `confirmed`; `cancelled`
and `no_show` to `cancelled`; `initial` — and every other string — to
`tentative`; and the file's two copies of the mapping agree on every
input. -/
theorem C9_status_projection :
    mapBookingStatusToCalendarStatus "confirmed" = .confirmed
    ∧ mapBookingStatusToCalendarStatus "in_progress" = .confirmed
    ∧ mapBookingStatusToCalendarStatus "completed" = .confirmed
    ∧ mapBookingStatusToCalendarStatus "cancelled" = .cancelled
    ∧ mapBookingStatusToCalendarStatus "no_show" = .cancelled
    ∧ mapBookingStatusToCalendarStatus "initial" = .tentative
    ∧ (∀ s : String, s ≠ "confirmed" → s ≠ "in_progress" → s ≠ "completed" →
        s ≠ "cancelled" → s ≠ "no_show" →
        mapBookingStatusToCalendarStatus s = .tentative)
    ∧ (∀ s : String,
        mapBookingStatusToCalendarStatusAlt s = mapBookingStatusToCalendarStatus s) := by
  refine ⟨by decide, by decide, by decide, by decide, by decide, by decide, ?_, ?_⟩
  · intro s h1 h2 h3 h4 h5
    unfold mapBookingStatusToCalendarStatus
    simp [h1, h2, h3, h4, h5]
  · intro s
    unfold mapBookingStatusToCalendarStatus mapBookingStatusToCalendarStatusAlt
    split_ifs <;> simp_all

/-- Witness for C9: an unexpected status string projects to `tentative`. -/
theorem C9_status_projection_witness :
    mapBookingStatusToCalendarStatus "pending_confirmation" = .tentative :=
  C9_status_projection.2.2.2.2.2.2.1 "pending_confirmation"
    (by decide) (by decide) (by decide) (by decide) (by decide)

/-- C10: with the calendar collaborator unconfigured, or with the
underlying lookup throwing at either layer, `checkForConflicts` returns
`hasConflicts = false`, and the service-level call returns the empty
list — a failed lookup is indistinguishable from "no conflicts". -/
theorem C10_conflict_check_fails_open (threw : Bool) (o : ListCallOutcome)
    (x : Option String) :
    (integrationCheckForConflicts false threw o).hasConflicts = false
    ∧ (integrationCheckForConflicts true true o).hasConflicts = false
    ∧ googleCheckForConflicts .threw x = []
    ∧ (integrationCheckForConflicts true false .threw).hasConflicts = false := by
  refine ⟨?_, ?_, rfl, ?_⟩ <;>
    simp [integrationCheckForConflicts, googleCheckForConflicts]

end HanaSalon
